import Mathlib

/-!
Verification of the Dialog Session Connector (CSpxDialogConnector,
source/core/sr/dialog_connector.h) against its design specification.

The repository slice contains the class declaration (dialog_connector.h);
the only member bodies present in source are the inline IsEnabled / Enable /
Disable implementations and the deleted copy/move special members.  The
remaining operation bodies are not part of the given sources, so their
behaviour is modelled from the specification text, as noted per definition.
-/

namespace Dialog

/-- Connection state of a Session, per the spec data model
(Disconnected | Connecting | Connected | Disconnecting). -/
inductive ConnState
  | Disconnected
  | Connecting
  | Connected
  | Disconnecting
  deriving DecidableEq, Repr

/-- Listening sub-state of a connected Session: none, continuous
streaming, or keyword-triggered.  The empty case is called idle here. -/
inductive Listening
  | idle
  | continuous
  | keyword
  deriving DecidableEq, Repr

/-- Recognition mode enumeration (RecoMode) per the spec data model. -/
inductive RecoMode
  | Interactive
  | Conversation
  | Dictation
  deriving DecidableEq, Repr

/-- Error taxonomy of the spec: InvalidState, InvalidArgument, Conflict,
Cancelled, and opaque transport/upstream failures. -/
inductive ErrorKind
  | InvalidState
  | InvalidArgument
  | Conflict
  | Cancelled
  | Transport
  deriving DecidableEq, Repr

/-- Resolution state of a stored async-operation handle:
Pending, Completed, or Failed with an error kind. -/
inductive HStatus
  | pending
  | completed
  | failed (e : ErrorKind)
  deriving DecidableEq, Repr

/-- Result of issuing an async operation (CSpxAsyncOp in the source): a
still-pending handle identified by its id, an already-completed success
value, or a failure. -/
inductive CSpxAsyncOp (α : Type)
  | pending (hid : Nat)
  | completed (v : α)
  | failed (e : ErrorKind)
  deriving DecidableEq, Repr

/-- State of one Session, per the spec data model: identity, connection
state, listening sub-state, and current keyword model reference. -/
structure SessionState where
  sid : Nat
  conn : ConnState
  listening : Listening
  kwsModel : Option Nat
  deriving DecidableEq, Repr

/-- State of one CSpxDialogConnector: the optional owned default Session
(m_defaultSession), fresh-identity counters, the table of async-operation
handles, the connect/disconnect pending flags, the recognition mode in
effect, and the local property bag. -/
structure ConnectorState where
  session : Option SessionState
  nextSessionId : Nat
  handles : Nat → Option HStatus
  nextHandleId : Nat
  connectPending : Bool
  disconnectPending : Bool
  recoMode : RecoMode
  nextActivityId : Nat
  props : List (String × String)

/-- Connector state right after Init: no Session yet, no handles, no
pending operations, default recognition mode. -/
def initialConnector : ConnectorState :=
  { session := none
    nextSessionId := 0
    handles := fun _ => none
    nextHandleId := 0
    connectPending := false
    disconnectPending := false
    recoMode := RecoMode.Interactive
    nextActivityId := 0
    props := [] }

/-- Allocate a fresh async-operation handle with the given status. -/
def allocHandle (st : ConnectorState) (h : HStatus) : Nat × ConnectorState :=
  (st.nextHandleId,
   { st with
      handles := fun i => if i = st.nextHandleId then some h else st.handles i
      nextHandleId := st.nextHandleId + 1 })

/-- Modelled from the spec: the body of
CSpxDialogConnector::GetDefaultSession is not in the given sources.
Per the spec it lazily constructs the Session on first call (and on every
call after a prior Term), otherwise returns the existing one.  A newly
constructed Session starts Disconnected, not listening, with no keyword
model, and receives a fresh identity. -/
def GetDefaultSession (st : ConnectorState) : SessionState × ConnectorState :=
  match st.session with
  | some s => (s, st)
  | none =>
    let s : SessionState :=
      { sid := st.nextSessionId
        conn := ConnState.Disconnected
        listening := Listening.idle
        kwsModel := none }
    (s, { st with session := some s, nextSessionId := st.nextSessionId + 1 })

/-- Modelled from the spec: the body of
CSpxDialogConnector::EnsureDefaultSession is not in the given sources.
The facade ensures a Session exists before forwarding a request. -/
def EnsureDefaultSession (st : ConnectorState) : ConnectorState :=
  (GetDefaultSession st).2

/-- Modelled from the spec: the body of
CSpxDialogConnector::TermDefaultSession is not in the given sources.
It tears the owned default Session down. -/
def TermDefaultSession (st : ConnectorState) : ConnectorState :=
  { st with session := none }

/-- A pending handle resolved by shutdown becomes a Cancelled failure;
already-resolved handles keep their resolution. -/
def cancelPending : HStatus → HStatus
  | HStatus.pending => HStatus.failed ErrorKind.Cancelled
  | h => h

/-- Modelled from the spec: the body of CSpxDialogConnector::Term is not
in the given sources.  Per the spec, Term tears the Session down and
resolves every pending async operation with a cancellation failure before
return; no operation remains pending afterwards. -/
def Term (st : ConnectorState) : ConnectorState :=
  { TermDefaultSession st with
      handles := fun i => (st.handles i).map cancelPending
      connectPending := false
      disconnectPending := false }

/-- Modelled from the spec: the body of CSpxDialogConnector::ConnectAsync
is not in the given sources.  Per the spec, calling while already
connected returns an already-completed success handle rather than
re-connecting; calling while a disconnect is pending fails fast
(Conflict), as does a second call while a connect is pending; otherwise
the connection attempt is initiated and a pending handle returned. -/
def ConnectAsync (st₀ : ConnectorState) : CSpxAsyncOp Unit × ConnectorState :=
  let s := (GetDefaultSession st₀).1
  let st := (GetDefaultSession st₀).2
  if st.disconnectPending then (CSpxAsyncOp.failed ErrorKind.Conflict, st)
  else if st.connectPending then (CSpxAsyncOp.failed ErrorKind.Conflict, st)
  else if s.conn = ConnState.Connected then (CSpxAsyncOp.completed (), st)
  else
    let hid := (allocHandle st HStatus.pending).1
    let st₁ := (allocHandle st HStatus.pending).2
    (CSpxAsyncOp.pending hid,
     { st₁ with
        session := some { s with conn := ConnState.Connecting }
        connectPending := true })

/-- Modelled from the spec: the body of
CSpxDialogConnector::DisconnectAsync is not in the given sources.
Symmetric to ConnectAsync: fails fast while either lifecycle operation is
pending, succeeds immediately when already disconnected, otherwise
initiates the disconnect. -/
def DisconnectAsync (st₀ : ConnectorState) : CSpxAsyncOp Unit × ConnectorState :=
  let s := (GetDefaultSession st₀).1
  let st := (GetDefaultSession st₀).2
  if st.disconnectPending then (CSpxAsyncOp.failed ErrorKind.Conflict, st)
  else if st.connectPending then (CSpxAsyncOp.failed ErrorKind.Conflict, st)
  else if s.conn = ConnState.Disconnected then (CSpxAsyncOp.completed (), st)
  else
    let hid := (allocHandle st HStatus.pending).1
    let st₁ := (allocHandle st HStatus.pending).2
    (CSpxAsyncOp.pending hid,
     { st₁ with
        session := some { s with conn := ConnState.Disconnecting }
        disconnectPending := true })

/-- Modelled from the spec: the body of
CSpxDialogConnector::StartContinuousListeningAsync is not in the given
sources.  Starting while already listening is a no-op success; otherwise
the streaming-audio mode is turned on and the call succeeds. -/
def StartContinuousListeningAsync (st₀ : ConnectorState) :
    CSpxAsyncOp Unit × ConnectorState :=
  let s := (GetDefaultSession st₀).1
  let st := (GetDefaultSession st₀).2
  if s.listening = Listening.continuous then (CSpxAsyncOp.completed (), st)
  else
    (CSpxAsyncOp.completed (),
     { st with session := some { s with listening := Listening.continuous } })

/-- Modelled from the spec: the body of
CSpxDialogConnector::StopContinuousListeningAsync is not in the given
sources.  Stopping while not continuously listening is a no-op success;
otherwise the streaming-audio mode is turned off. -/
def StopContinuousListeningAsync (st₀ : ConnectorState) :
    CSpxAsyncOp Unit × ConnectorState :=
  let s := (GetDefaultSession st₀).1
  let st := (GetDefaultSession st₀).2
  if s.listening = Listening.continuous then
    (CSpxAsyncOp.completed (),
     { st with session := some { s with listening := Listening.idle } })
  else (CSpxAsyncOp.completed (), st)

/-- Modelled from the spec: the body of
CSpxDialogConnector::StartKeywordRecognitionAsync is not in the given
sources.  Starting installs the model, replacing any previously active
one. -/
def StartKeywordRecognitionAsync (st₀ : ConnectorState) (model : Nat) :
    CSpxAsyncOp Unit × ConnectorState :=
  let s := (GetDefaultSession st₀).1
  let st := (GetDefaultSession st₀).2
  (CSpxAsyncOp.completed (),
   { st with
      session := some { s with listening := Listening.keyword, kwsModel := some model } })

/-- Modelled from the spec: the body of
CSpxDialogConnector::StopKeywordRecognitionAsync is not in the given
sources.  Stopping clears the keyword model reference. -/
def StopKeywordRecognitionAsync (st₀ : ConnectorState) :
    CSpxAsyncOp Unit × ConnectorState :=
  let s := (GetDefaultSession st₀).1
  let st := (GetDefaultSession st₀).2
  (CSpxAsyncOp.completed (),
   { st with
      session := some
        { s with
            listening := if s.listening = Listening.keyword then Listening.idle else s.listening
            kwsModel := none } })

/-- Modelled from the spec: the body of
CSpxDialogConnector::ListenOnceAsync is not in the given sources.
Per the spec it captures one utterance and resolves to a single
recognition result (modelled as an opaque numeric result id); it cannot
be issued concurrently with continuous listening and fails with Conflict
in that case, leaving the listening state untouched. -/
def ListenOnceAsync (st₀ : ConnectorState) : CSpxAsyncOp Nat × ConnectorState :=
  let s := (GetDefaultSession st₀).1
  let st := (GetDefaultSession st₀).2
  if s.listening = Listening.continuous then
    (CSpxAsyncOp.failed ErrorKind.Conflict, st)
  else
    let hid := (allocHandle st HStatus.pending).1
    let st₁ := (allocHandle st HStatus.pending).2
    (CSpxAsyncOp.pending hid, st₁)

/-- Service-assigned activity id for the n-th sent activity; never the
empty string. -/
def serviceActivityId (n : Nat) : String :=
  "activity-" ++ toString n

/-- Modelled from the spec: the body of
CSpxDialogConnector::SendActivityAsync is not in the given sources.
Valid only when connected; returns a handle resolving to a
service-assigned activity id, and fails with InvalidState when no Session
exists or the connection is not established. -/
def SendActivityAsync (st : ConnectorState) (activity : String) :
    CSpxAsyncOp String × ConnectorState :=
  match st.session with
  | none => (CSpxAsyncOp.failed ErrorKind.InvalidState, st)
  | some s =>
    if s.conn = ConnState.Connected then
      (CSpxAsyncOp.completed (serviceActivityId st.nextActivityId),
       { st with nextActivityId := st.nextActivityId + 1 })
    else (CSpxAsyncOp.failed ErrorKind.InvalidState, st)

/-- The special property key that triggers SetRecoMode
(the recognition-mode property). -/
def recoModeKey : String := "SPEECH-RecoMode"

/-- Parse a recognition-mode property value against the known mode
enumeration; unrecognized values parse to none. -/
def parseRecoMode : String → Option RecoMode
  | "INTERACTIVE" => some RecoMode.Interactive
  | "CONVERSATION" => some RecoMode.Conversation
  | "DICTATION" => some RecoMode.Dictation
  | _ => none

/-- Modelled from the spec: the body of CSpxDialogConnector::SetRecoMode
is not in the given sources.  It validates the value against the known
mode enumeration and fails with InvalidArgument on an unrecognized value,
leaving the previous mode in effect. -/
def SetRecoMode (st : ConnectorState) (modeToSet : String) :
    Except ErrorKind Unit × ConnectorState :=
  match parseRecoMode modeToSet with
  | none => (Except.error ErrorKind.InvalidArgument, st)
  | some m => (Except.ok (), { st with recoMode := m })

/-- Modelled from the spec: the body of
CSpxDialogConnector::SetStringValue is not in the given sources.  Writes
go to the local property bag; the special recognition-mode key triggers
SetRecoMode first and the write is abandoned when validation fails. -/
def SetStringValue (st : ConnectorState) (name value : String) :
    Except ErrorKind Unit × ConnectorState :=
  if name = recoModeKey then
    match SetRecoMode st value with
    | (Except.error e, st₁) => (Except.error e, st₁)
    | (Except.ok _, st₁) => (Except.ok (), { st₁ with props := (name, value) :: st₁.props })
  else (Except.ok (), { st with props := (name, value) :: st.props })

/-- From the source (dialog_connector.h line 57): IsEnabled returns true
unconditionally. -/
def IsEnabled (_ : ConnectorState) : Bool := true

/-- From the source (dialog_connector.h line 58): Enable has an empty
body, so it changes nothing. -/
def Enable (st : ConnectorState) : ConnectorState := st

/-- From the source (dialog_connector.h line 59): Disable has an empty
body, so it changes nothing. -/
def Disable (st : ConnectorState) : ConnectorState := st

/-- Well-formedness of a connector state: an existing Session has an
identity below the fresh-identity counter, and a pending connect or
disconnect is reflected in the Session connection state; without a
Session nothing is pending. -/
def WF (st : ConnectorState) : Prop :=
  match st.session with
  | none => st.disconnectPending = false ∧ st.connectPending = false
  | some s =>
    s.sid < st.nextSessionId
      ∧ (st.disconnectPending = true → s.conn = ConnState.Disconnecting)
      ∧ (st.connectPending = true → s.conn = ConnState.Connecting)

/-- Iterated StartContinuousListeningAsync, discarding returned handles. -/
def startRepeat : Nat → ConnectorState → ConnectorState
  | 0, st => st
  | n + 1, st => startRepeat n (StartContinuousListeningAsync st).2

/-- State of the Event Dispatcher: registered listeners in registration
order, each with the list of events it has received in delivery order,
and a global delivery log of (listener, event) pairs in delivery order.
Events are modelled as opaque numeric event records. -/
structure Dispatcher where
  listeners : List (Nat × List Nat)
  log : List (Nat × Nat)
  deriving DecidableEq, Repr

/-- Register an external listener; it joins the end of the registration
order with no past events. -/
def addListener (d : Dispatcher) (i : Nat) : Dispatcher :=
  { d with listeners := d.listeners ++ [(i, [])] }

/-- Modelled from the spec: the bodies of the event-firing entry points
(FireSessionStarted and the other Fire functions, all funnelled through
FireRecoEvent) are not in the given sources.  Per the spec, a fired event
is delivered to every listener registered at the moment of firing, in
registration order, and events are not reordered or batched. -/
def FireRecoEvent (d : Dispatcher) (e : Nat) : Dispatcher :=
  { listeners := d.listeners.map (fun p => (p.1, p.2 ++ [e]))
    log := d.log ++ d.listeners.map (fun p => (p.1, e)) }

/-- Commands driving the Event Dispatcher: register a listener or fire an
event. -/
inductive DCmd
  | reg (i : Nat)
  | fire (e : Nat)
  deriving DecidableEq, Repr

/-- One dispatcher step. -/
def dstep (d : Dispatcher) : DCmd → Dispatcher
  | DCmd.reg i => addListener d i
  | DCmd.fire e => FireRecoEvent d e

/-- Run a command script from the empty dispatcher. -/
def drun (cs : List DCmd) : Dispatcher :=
  cs.foldl dstep { listeners := [], log := [] }

/-- Events fired by a script, in firing order. -/
def firesOf : List DCmd → List Nat
  | [] => []
  | DCmd.reg _ :: cs => firesOf cs
  | DCmd.fire e :: cs => e :: firesOf cs

/-- Listener ids registered by a script, in registration order. -/
def regsOf : List DCmd → List Nat
  | [] => []
  | DCmd.reg i :: cs => i :: regsOf cs
  | DCmd.fire _ :: cs => regsOf cs

/-- Look a listener up by id, returning its received-event list. -/
def findL (i : Nat) : List (Nat × List Nat) → Option (List Nat)
  | [] => none
  | (j, v) :: rest => if i = j then some v else findL i rest

/-- Special member functions of the CSpxDialogConnector class. -/
inductive SpecialMember
  | defaultCtor
  | copyCtor
  | moveCtor
  | copyAssign
  | dtor
  deriving DecidableEq, Repr

/-- From the source (dialog_connector.h lines 32 to 33 and 112 to 115):
the default constructor and the destructor are declared public, while the
copy constructor, the move constructor and copy assignment are declared
deleted. -/
def memberAvailable : SpecialMember → Bool
  | SpecialMember.defaultCtor => true
  | SpecialMember.dtor => true
  | SpecialMember.copyCtor => false
  | SpecialMember.moveCtor => false
  | SpecialMember.copyAssign => false

/-- The special members that would produce a second connector from an
existing one, duplicating the owned default Session reference. -/
def duplicatesConnector : SpecialMember → Bool
  | SpecialMember.copyCtor => true
  | SpecialMember.moveCtor => true
  | SpecialMember.copyAssign => true
  | _ => false

/-- Sample Session: connected, not listening. -/
def sConn : SessionState :=
  { sid := 0, conn := ConnState.Connected, listening := Listening.idle, kwsModel := none }

/-- Sample Session: connected, continuously listening. -/
def sListen : SessionState :=
  { sid := 0, conn := ConnState.Connected, listening := Listening.continuous, kwsModel := none }

/-- Sample connector state: live connected Session, one pending handle. -/
def stConn : ConnectorState :=
  { initialConnector with
      session := some sConn
      nextSessionId := 1
      handles := fun i => if i = 0 then some HStatus.pending else none
      nextHandleId := 1 }

/-- Sample connector state: live Session with continuous listening on. -/
def stListen : ConnectorState :=
  { stConn with session := some sListen }

/-- Holds a Session: GetDefaultSession returns the existing Session and
changes nothing. -/
theorem getDefaultSession_some (st : ConnectorState) (s : SessionState)
    (h : st.session = some s) : GetDefaultSession st = (s, st) := by
  simp [GetDefaultSession, h]

/-- The sample connected state is well formed. -/
theorem wf_stConn : WF stConn :=
  ⟨Nat.zero_lt_one, fun h => Bool.noConfusion h, fun h => Bool.noConfusion h⟩

/-- The sample continuously-listening state is well formed. -/
theorem wf_stListen : WF stListen :=
  ⟨Nat.zero_lt_one, fun h => Bool.noConfusion h, fun h => Bool.noConfusion h⟩

/-- StartContinuousListeningAsync a fixed point: iterating it any number
of times changes nothing. -/
theorem startRepeat_fixed (n : Nat) (st : ConnectorState)
    (h : (StartContinuousListeningAsync st).2 = st) : startRepeat n st = st := by
  induction n with
  | zero => rfl
  | succ n ih => rw [startRepeat, h]; exact ih

/-- Claim C1: while continuous listening is active, ListenOnceAsync
resolves to a Conflict failure and the connector state, its
continuous-listening state included, is exactly what it was before the
call. -/
theorem claim_C1 (st : ConnectorState) (s : SessionState)
    (h1 : st.session = some s) (h2 : s.listening = Listening.continuous) :
    (ListenOnceAsync st).1 = CSpxAsyncOp.failed ErrorKind.Conflict
    ∧ (ListenOnceAsync st).2 = st := by
  constructor <;> simp [ListenOnceAsync, GetDefaultSession, h1, h2]

/-- Witness for C1 at the sample continuously-listening state. -/
theorem claim_C1_witness :
    stListen.session = some sListen
    ∧ sListen.listening = Listening.continuous
    ∧ ((ListenOnceAsync stListen).1 = CSpxAsyncOp.failed ErrorKind.Conflict
       ∧ (ListenOnceAsync stListen).2 = stListen) :=
  ⟨rfl, rfl, claim_C1 stListen sListen rfl rfl⟩

/-- Claim C4: starting continuous listening while it is already active is
a no-op success, and so is any number of repeated starts; symmetrically,
stopping while not continuously listening is a no-op success. -/
theorem claim_C4 (st st' : ConnectorState) (s s' : SessionState) (n : Nat)
    (h1 : st.session = some s) (h2 : s.listening = Listening.continuous)
    (h3 : st'.session = some s') (h4 : s'.listening ≠ Listening.continuous) :
    StartContinuousListeningAsync st = (CSpxAsyncOp.completed (), st)
    ∧ startRepeat n st = st
    ∧ StopContinuousListeningAsync st' = (CSpxAsyncOp.completed (), st') := by
  have hstart : StartContinuousListeningAsync st = (CSpxAsyncOp.completed (), st) := by
    simp [StartContinuousListeningAsync, GetDefaultSession, h1, h2]
  refine ⟨hstart, startRepeat_fixed n st (by rw [hstart]), ?_⟩
  simp [StopContinuousListeningAsync, GetDefaultSession, h3, h4]

/-- Witness for C4: three repeated starts on the sample listening state
and one stop on the sample non-listening state. -/
theorem claim_C4_witness :
    stListen.session = some sListen
    ∧ sListen.listening = Listening.continuous
    ∧ stConn.session = some sConn
    ∧ sConn.listening ≠ Listening.continuous
    ∧ (StartContinuousListeningAsync stListen = (CSpxAsyncOp.completed (), stListen)
       ∧ startRepeat 3 stListen = stListen
       ∧ StopContinuousListeningAsync stConn = (CSpxAsyncOp.completed (), stConn)) :=
  ⟨rfl, rfl, rfl, by decide,
   claim_C4 stListen stConn sListen sConn 3 rfl rfl rfl (by decide)⟩

/-- Claim C5: SetStringValue with the recognition-mode key and a value
outside the mode enumeration fails with InvalidArgument and leaves the
state, in particular the recognition mode in effect, unchanged. -/
theorem claim_C5 (st : ConnectorState) (v : String) (h : parseRecoMode v = none) :
    SetStringValue st recoModeKey v = (Except.error ErrorKind.InvalidArgument, st)
    ∧ (SetStringValue st recoModeKey v).2.recoMode = st.recoMode := by
  have h1 : SetRecoMode st v = (Except.error ErrorKind.InvalidArgument, st) := by
    simp [SetRecoMode, h]
  constructor <;> simp [SetStringValue, h1]

/-- Witness for C5 with the unrecognized mode value BOGUS. -/
theorem claim_C5_witness :
    parseRecoMode "BOGUS" = none
    ∧ (SetStringValue stConn recoModeKey "BOGUS" = (Except.error ErrorKind.InvalidArgument, stConn)
       ∧ (SetStringValue stConn recoModeKey "BOGUS").2.recoMode = stConn.recoMode) :=
  ⟨rfl, claim_C5 stConn "BOGUS" rfl⟩

/-- Claim C8: while a Session exists, GetDefaultSession returns that very
Session and does not construct a new one; when none exists (first call,
or any call after a Term), it constructs the Session it returns. -/
theorem claim_C8 (st st₀ st₁ : ConnectorState) (s : SessionState)
    (h : st.session = some s) :
    GetDefaultSession st = (s, st)
    ∧ (st₀.session = none →
        (GetDefaultSession st₀).2.session = some (GetDefaultSession st₀).1)
    ∧ (Term st₁).session = none
    ∧ (GetDefaultSession (Term st₁)).2.session = some (GetDefaultSession (Term st₁)).1 := by
  refine ⟨getDefaultSession_some st s h, fun h0 => by simp [GetDefaultSession, h0], rfl, ?_⟩
  simp [GetDefaultSession, Term, TermDefaultSession]

/-- Witness for C8 at the sample states. -/
theorem claim_C8_witness :
    stConn.session = some sConn
    ∧ (GetDefaultSession stConn = (sConn, stConn)
       ∧ (initialConnector.session = none →
           (GetDefaultSession initialConnector).2.session
             = some (GetDefaultSession initialConnector).1)
       ∧ (Term stListen).session = none
       ∧ (GetDefaultSession (Term stListen)).2.session
           = some (GetDefaultSession (Term stListen)).1) :=
  ⟨rfl, claim_C8 stConn initialConnector stListen sConn rfl⟩

/-- Claim C9: the enable/disable surface is inert: IsEnabled is
constantly true and Enable and Disable change nothing. -/
theorem claim_C9 (st : ConnectorState) :
    IsEnabled st = true ∧ Enable st = st ∧ Disable st = st :=
  ⟨rfl, rfl, rfl⟩

/-- Claim C10: every duplicating special member (copy constructor, move
constructor, copy assignment) is deleted, and the only available
construction surface is the default constructor (plus the destructor), so
no second connector sharing the owned default Session can be produced
from an existing one. -/
theorem claim_C10 (m : SpecialMember) (h : duplicatesConnector m = true) :
    memberAvailable m = false
    ∧ ∀ m₂, memberAvailable m₂ = true →
        m₂ = SpecialMember.defaultCtor ∨ m₂ = SpecialMember.dtor := by
  constructor
  · cases m
    · exact absurd h (by decide)
    · rfl
    · rfl
    · rfl
    · exact absurd h (by decide)
  · intro m₂ h₂
    cases m₂
    · exact Or.inl rfl
    · exact absurd h₂ (by decide)
    · exact absurd h₂ (by decide)
    · exact absurd h₂ (by decide)
    · exact Or.inr rfl

/-- Witness for C10 at the deleted copy constructor. -/
theorem claim_C10_witness :
    duplicatesConnector SpecialMember.copyCtor = true
    ∧ (memberAvailable SpecialMember.copyCtor = false
       ∧ ∀ m₂, memberAvailable m₂ = true →
           m₂ = SpecialMember.defaultCtor ∨ m₂ = SpecialMember.dtor) :=
  ⟨rfl, claim_C10 SpecialMember.copyCtor rfl⟩

/-- Claim C2: every handle pending when Term is called is resolved to a
Cancelled failure by Term, the Session is gone afterwards, and the next
GetDefaultSession constructs and returns a Session whose identity differs
from the pre-Term one. -/
theorem claim_C2 (st : ConnectorState) (s : SessionState) (i : Nat)
    (hwf : WF st) (hs : st.session = some s)
    (hp : st.handles i = some HStatus.pending) :
    (Term st).handles i = some (HStatus.failed ErrorKind.Cancelled)
    ∧ (Term st).session = none
    ∧ (GetDefaultSession (Term st)).1.sid ≠ s.sid
    ∧ (GetDefaultSession (Term st)).2.session = some (GetDefaultSession (Term st)).1 := by
  have hlt : s.sid < st.nextSessionId := by
    unfold WF at hwf
    rw [hs] at hwf
    exact hwf.1
  refine ⟨?_, rfl, ?_, ?_⟩
  · show (st.handles i).map cancelPending = _
    rw [hp]; rfl
  · have hsid : (GetDefaultSession (Term st)).1.sid = st.nextSessionId := by
      simp [GetDefaultSession, Term, TermDefaultSession]
    rw [hsid]
    exact (Nat.ne_of_lt hlt).symm
  · simp [GetDefaultSession, Term, TermDefaultSession]

/-- Witness for C2: the sample listening state has handle 0 pending. -/
theorem claim_C2_witness :
    WF stListen
    ∧ stListen.session = some sListen
    ∧ stListen.handles 0 = some HStatus.pending
    ∧ ((Term stListen).handles 0 = some (HStatus.failed ErrorKind.Cancelled)
       ∧ (Term stListen).session = none
       ∧ (GetDefaultSession (Term stListen)).1.sid ≠ sListen.sid
       ∧ (GetDefaultSession (Term stListen)).2.session
           = some (GetDefaultSession (Term stListen)).1) :=
  ⟨wf_stListen, rfl, rfl, claim_C2 stListen sListen 0 wf_stListen rfl rfl⟩

/-- Claim C6: SendActivityAsync with an established connection resolves
to a non-empty service-assigned activity id; with no Session or with the
connection not established it fails with InvalidState. -/
theorem claim_C6 (st : ConnectorState) (a : String) :
    ((st.session = none ∨ ∃ s, st.session = some s ∧ s.conn ≠ ConnState.Connected) →
      (SendActivityAsync st a).1 = CSpxAsyncOp.failed ErrorKind.InvalidState)
    ∧ (∀ s, st.session = some s → s.conn = ConnState.Connected →
        ∃ aid, (SendActivityAsync st a).1 = CSpxAsyncOp.completed aid ∧ aid ≠ "") := by
  constructor
  · rintro (h | ⟨s, hs, hc⟩)
    · simp [SendActivityAsync, h]
    · simp [SendActivityAsync, hs, hc]
  · intro s hs hc
    refine ⟨serviceActivityId st.nextActivityId, ?_, ?_⟩
    · simp [SendActivityAsync, hs, hc]
    · unfold serviceActivityId
      intro hEq
      have h1 : ("activity-" ++ toString st.nextActivityId).length
          = ("" : String).length := by rw [hEq]
      simp [String.length_append] at h1
      exact absurd h1.1 (by decide)

/-- Witness for C6: sending the activity ping on the sample connected
state yields a non-empty activity id. -/
theorem claim_C6_witness :
    stConn.session = some sConn
    ∧ sConn.conn = ConnState.Connected
    ∧ ∃ aid, (SendActivityAsync stConn "ping").1 = CSpxAsyncOp.completed aid
        ∧ aid ≠ "" :=
  ⟨rfl, rfl, (claim_C6 stConn "ping").2 sConn rfl rfl⟩

/-- Claim C3: on a well-formed connector, ConnectAsync while the Session
is Connected returns an already-completed success handle and changes
nothing; ConnectAsync while a disconnect (or another connect) is pending
fails fast with Conflict instead of queuing; and connect and disconnect
are never both pending, neither before nor after either operation. -/
theorem claim_C3 (st : ConnectorState) (s : SessionState) (hwf : WF st) :
    (st.session = some s → s.conn = ConnState.Connected →
        ConnectAsync st = (CSpxAsyncOp.completed (), st))
    ∧ (st.disconnectPending = true →
        (ConnectAsync st).1 = CSpxAsyncOp.failed ErrorKind.Conflict
        ∧ (ConnectAsync st).2 = st)
    ∧ (st.connectPending = true →
        (ConnectAsync st).1 = CSpxAsyncOp.failed ErrorKind.Conflict
        ∧ (ConnectAsync st).2 = st)
    ∧ ¬(st.connectPending = true ∧ st.disconnectPending = true)
    ∧ ¬((ConnectAsync st).2.connectPending = true
        ∧ (ConnectAsync st).2.disconnectPending = true)
    ∧ ¬((DisconnectAsync st).2.connectPending = true
        ∧ (DisconnectAsync st).2.disconnectPending = true) := by
  unfold WF at hwf
  cases hsess : st.session with
  | none =>
    rw [hsess] at hwf
    obtain ⟨hd, hc⟩ := hwf
    refine ⟨?_, ?_, ?_, ?_, ?_, ?_⟩
    · intro hss _
      exact Option.noConfusion hss
    · intro hd'
      rw [hd] at hd'
      exact Bool.noConfusion hd'
    · intro hc'
      rw [hc] at hc'
      exact Bool.noConfusion hc'
    · rintro ⟨h1, _⟩
      rw [hc] at h1
      exact Bool.noConfusion h1
    · simp [ConnectAsync, GetDefaultSession, hsess, hd, hc, allocHandle]
    · simp [DisconnectAsync, GetDefaultSession, hsess, hd, hc, allocHandle]
  | some s₀ =>
    rw [hsess] at hwf
    obtain ⟨hsid, himpd, himpc⟩ := hwf
    have hGD : GetDefaultSession st = (s₀, st) := getDefaultSession_some st s₀ hsess
    have hnotboth : ¬(st.connectPending = true ∧ st.disconnectPending = true) := by
      rintro ⟨h1, h2⟩
      have hx := himpd h2
      have hy := himpc h1
      rw [hx] at hy
      exact ConnState.noConfusion hy
    refine ⟨?_, ?_, ?_, hnotboth, ?_, ?_⟩
    · intro hss hcc
      injection hss with he
      subst he
      have hd : st.disconnectPending = false := by
        cases hdp : st.disconnectPending
        · rfl
        · have hx := himpd hdp
          rw [hcc] at hx
          exact ConnState.noConfusion hx
      have hcp : st.connectPending = false := by
        cases hcp : st.connectPending
        · rfl
        · have hx := himpc hcp
          rw [hcc] at hx
          exact ConnState.noConfusion hx
      simp [ConnectAsync, hGD, hd, hcp, hcc]
    · intro hd'
      constructor <;> simp [ConnectAsync, hGD, hd']
    · intro hc'
      have hd : st.disconnectPending = false := by
        cases hdp : st.disconnectPending
        · rfl
        · exact absurd ⟨hc', hdp⟩ hnotboth
      constructor <;> simp [ConnectAsync, hGD, hd, hc']
    · cases hdp : st.disconnectPending with
      | true =>
        have hcp : st.connectPending = false := by
          cases hcp : st.connectPending
          · rfl
          · exact absurd ⟨hcp, hdp⟩ hnotboth
        simp [ConnectAsync, hGD, hdp, hcp]
      | false =>
        cases hcp : st.connectPending with
        | true => simp [ConnectAsync, hGD, hdp, hcp]
        | false =>
          by_cases hcn : s₀.conn = ConnState.Connected <;>
            simp [ConnectAsync, hGD, hdp, hcp, hcn, allocHandle]
    · cases hdp : st.disconnectPending with
      | true =>
        have hcp : st.connectPending = false := by
          cases hcp : st.connectPending
          · rfl
          · exact absurd ⟨hcp, hdp⟩ hnotboth
        simp [DisconnectAsync, hGD, hdp, hcp]
      | false =>
        cases hcp : st.connectPending with
        | true => simp [DisconnectAsync, hGD, hdp, hcp]
        | false =>
          by_cases hcn : s₀.conn = ConnState.Disconnected <;>
            simp [DisconnectAsync, hGD, hdp, hcp, hcn, allocHandle]

/-- Witness for C3: ConnectAsync on the sample connected state is an
already-completed success leaving the state unchanged. -/
theorem claim_C3_witness :
    WF stConn
    ∧ stConn.session = some sConn
    ∧ sConn.conn = ConnState.Connected
    ∧ ConnectAsync stConn = (CSpxAsyncOp.completed (), stConn) :=
  ⟨wf_stConn, rfl, rfl, (claim_C3 stConn sConn wf_stConn).1 rfl rfl⟩

/-- Look-up in a listener list splits around a marked listener whose id
does not occur to its left. -/
theorem findL_append (i : Nat) (l₁ l₂ : List (Nat × List Nat)) (acc : List Nat)
    (h : i ∉ l₁.map Prod.fst) :
    findL i (l₁ ++ (i, acc) :: l₂) = some acc := by
  induction l₁ with
  | nil => simp [findL]
  | cons p l ih =>
    have h1 : i ≠ p.1 := by
      intro hx
      exact h (by simp [hx])
    have h2 : i ∉ l.map Prod.fst := by
      intro hx
      exact h (by simp [hx])
    obtain ⟨j, v⟩ := p
    simp only [List.cons_append, findL]
    rw [if_neg h1]
    exact ih h2

/-- Running the dispatcher forward, a listener already registered (and
not shadowed to its left) accumulates exactly the events fired from that
point on, in firing order, onto what it had already received. -/
theorem foldl_findL (i : Nat) :
    ∀ (cs : List DCmd) (l₁ l₂ : List (Nat × List Nat)) (acc : List Nat)
      (lg : List (Nat × Nat)), i ∉ l₁.map Prod.fst →
      findL i (List.foldl dstep ⟨l₁ ++ (i, acc) :: l₂, lg⟩ cs).listeners
        = some (acc ++ firesOf cs) := by
  intro cs
  induction cs with
  | nil =>
    intro l₁ l₂ acc lg h
    simp only [List.foldl_nil, firesOf, List.append_nil]
    exact findL_append i l₁ l₂ acc h
  | cons c cs ih =>
    intro l₁ l₂ acc lg h
    cases c with
    | reg j =>
      have hstep :
          dstep ⟨l₁ ++ (i, acc) :: l₂, lg⟩ (DCmd.reg j)
            = ⟨l₁ ++ (i, acc) :: (l₂ ++ [(j, [])]), lg⟩ := by
        simp [dstep, addListener]
      simp only [List.foldl_cons, hstep, firesOf]
      exact ih l₁ (l₂ ++ [(j, [])]) acc lg h
    | fire e =>
      have hstep :
          dstep ⟨l₁ ++ (i, acc) :: l₂, lg⟩ (DCmd.fire e)
            = ⟨(l₁.map (fun p => (p.1, p.2 ++ [e])))
                 ++ (i, acc ++ [e]) :: (l₂.map (fun p => (p.1, p.2 ++ [e]))),
               lg ++ (l₁ ++ (i, acc) :: l₂).map (fun p => (p.1, e))⟩ := by
        simp [dstep, FireRecoEvent]
      have h2 : i ∉ (l₁.map (fun p => (p.1, p.2 ++ [e]))).map Prod.fst := by
        intro hx
        apply h
        rw [List.map_map] at hx
        simpa using hx
      simp only [List.foldl_cons, hstep, firesOf]
      rw [ih (l₁.map (fun p => (p.1, p.2 ++ [e]))) (l₂.map (fun p => (p.1, p.2 ++ [e])))
            (acc ++ [e]) _ h2]
      simp

/-- Ids of the registered listeners after a run are the registered ids of
the script, in registration order, appended to what was already there. -/
theorem foldl_regs :
    ∀ (cs : List DCmd) (d : Dispatcher),
      (List.foldl dstep d cs).listeners.map Prod.fst
        = d.listeners.map Prod.fst ++ regsOf cs := by
  intro cs
  induction cs with
  | nil => intro d; simp [regsOf]
  | cons c cs ih =>
    intro d
    cases c with
    | reg j =>
      simp only [List.foldl_cons, regsOf, ih, dstep, addListener]
      simp
    | fire e =>
      simp only [List.foldl_cons, regsOf, ih, dstep, FireRecoEvent]
      simp [List.map_map]

/-- Claim C7: a listener registered at some point of a dispatcher script
receives exactly the events fired after its registration, in firing order
(so a listener registered after a firing never receives that event, and
events are neither reordered nor batched); and each firing delivers to
exactly the listeners registered at that moment, in registration order. -/
theorem claim_C7 (cs₁ cs₂ cs : List DCmd) (i e : Nat) (h : i ∉ regsOf cs₁) :
    findL i (drun (cs₁ ++ DCmd.reg i :: cs₂)).listeners = some (firesOf cs₂)
    ∧ (drun (cs ++ [DCmd.fire e])).log
        = (drun cs).log ++ (drun cs).listeners.map (fun p => (p.1, e)) := by
  constructor
  · have hfst : i ∉ (drun cs₁).listeners.map Prod.fst := by
      rw [drun, foldl_regs]
      simpa using h
    have hmain := foldl_findL i cs₂ (drun cs₁).listeners [] [] (drun cs₁).log hfst
    rw [drun, List.foldl_append]
    simp only [List.foldl_cons]
    have hstep :
        dstep (List.foldl dstep { listeners := [], log := [] } cs₁) (DCmd.reg i)
          = ⟨(drun cs₁).listeners ++ (i, []) :: [], (drun cs₁).log⟩ := by
      simp [dstep, addListener, drun]
    rw [hstep]
    simpa using hmain
  · rw [drun, drun, List.foldl_append]
    simp [dstep, FireRecoEvent]

/-- Witness for C7: listener 3 registered after listener 1 and after the
event 5 was fired sees only the later event 7 and not the earlier 5; one
more firing is logged to the then-registered listeners in order. -/
theorem claim_C7_witness :
    (3 : Nat) ∉ regsOf [DCmd.reg 1, DCmd.fire 5]
    ∧ (findL 3 (drun ([DCmd.reg 1, DCmd.fire 5] ++ DCmd.reg 3 :: [DCmd.fire 7])).listeners
         = some (firesOf [DCmd.fire 7])
       ∧ (drun ([DCmd.reg 1, DCmd.reg 2] ++ [DCmd.fire 9])).log
           = (drun [DCmd.reg 1, DCmd.reg 2]).log
             ++ (drun [DCmd.reg 1, DCmd.reg 2]).listeners.map (fun p => (p.1, 9))) :=
  ⟨by decide,
   claim_C7 [DCmd.reg 1, DCmd.fire 5] [DCmd.fire 7] [DCmd.reg 1, DCmd.reg 2] 3 9
     (by decide)⟩

end Dialog
